import Mathlib

/-!
Shallow embedding of the aurum-server synchronization server.

Source of truth: the current `AurumServer` class and `Client` class in
`src/src/client.ts`, plus the `Router` class in `src/src/router.ts`.
Machine-level details (WebSocket transport, JSON text) are abstracted:
a frame is characterized by its length and its parse result, a client's
outbound connection by the ordered list of messages handed to `send`.
The aurumjs reactive primitives (`DataSource`, `ArrayDataSource`,
`DuplexDataSource`, `CancellationToken`) are external collaborators; they
are modelled from the spec's collaborator contract (spec section 6):
a scalar source holds a current value and an ordered listener list,
`listenAndRepeat` attaches a listener and immediately invokes it with the
current value, an update invokes every listener in registration order
unless the listener's cancellation token has been cancelled, and a duplex
source additionally records upstream pushes.
-/

set_option maxHeartbeats 1000000

namespace Aurum

/-- Authorization operations appearing in the authenticator signatures. -/
inductive Op
  | read
  | write
deriving DecidableEq

/-- An authorization predicate `(token, operation) -> boolean`. -/
abbrev Auth := String → Op → Bool

/-- The default authorizer `() => true` used by the expose methods. -/
def allowAll : Auth := fun _ _ => true

/-- Wire message kinds, from the `RemoteProtocol` enum as used by the server. -/
inductive RemoteProtocol
  | LISTEN_DATASOURCE
  | LISTEN_DUPLEX_DATASOURCE
  | LISTEN_ARRAY_DATASOURCE
  | UPDATE_DUPLEX_DATASOURCE
  | HEARTBEAT
  | UPDATE_DATASOURCE
  | UPDATE_ARRAY_DATASOURCE
  | LISTEN_DATASOURCE_OK
  | LISTEN_DATASOURCE_ERR
  | LISTEN_ARRAY_DATASOURCE_ERR
  | LISTEN_DUPLEX_DATASOURCE_ERR
  | UPDATE_DUPLEX_DATASOURCE_ERR
deriving DecidableEq

/-- A raw collection-mutation event as produced by an `ArrayDataSource`.
Optional fields model the dynamic JS object shape: `none` means the field
is absent from the object (deleted or never set). `operationField` is the
coarse `operation` tag, `operationDetailed` the detailed kind tag. -/
structure RawChange where
  operationField : Option String
  operationDetailed : String
  previousState : Option (List Int)
  newState : Option (List Int)
  index : Option Nat
  index2 : Option Nat
  count : Option Nat
  items : Option (List Int)
deriving DecidableEq

/-- The wire shaping applied by the current `listenArrayDataSource` callback
(`client.ts` lines 209-219): clone the change, then
`delete change.operation; delete change.previousState; delete change.newState`
unconditionally, keeping every other field. -/
def stripChange (c : RawChange) : RawChange :=
  { c with operationField := none, previousState := none, newState := none }

/-- The wire shaping of the superseded `listenArrayDataSource` variant
(`src/unnamed/part_000` lines 167-172): the snapshots are deleted only when
`change.operation !== "merge"`. -/
def stripChangeLegacy (c : RawChange) : RawChange :=
  if c.operationField = some "merge" then c
  else { c with previousState := none, newState := none }

/-- An outbound wire message `{type, ...payload}` as handed to
`connection.send` by `Client.sendMessage`. Absent payload fields are `none`. -/
structure Message where
  msgType : RemoteProtocol
  id : String
  value : Option Int
  change : Option RawChange
  errorCode : Option Nat
  error : Option String
deriving DecidableEq

/-- `{id, value}` payload with `UPDATE_DATASOURCE`. -/
def mkUpdate (id : String) (v : Int) : Message :=
  ⟨RemoteProtocol.UPDATE_DATASOURCE, id, some v, none, none, none⟩

/-- `{id, value}` payload with `UPDATE_DUPLEX_DATASOURCE`. -/
def mkDuplexUpdate (id : String) (v : Int) : Message :=
  ⟨RemoteProtocol.UPDATE_DUPLEX_DATASOURCE, id, some v, none, none, none⟩

/-- `{id, change}` payload with `UPDATE_ARRAY_DATASOURCE`. -/
def mkArrayUpdate (id : String) (c : RawChange) : Message :=
  ⟨RemoteProtocol.UPDATE_ARRAY_DATASOURCE, id, none, some c, none, none⟩

/-- `{id, errorCode, error}` payload with the given error message kind. -/
def mkErr (t : RemoteProtocol) (id : String) (code : Nat) (msg : String) : Message :=
  ⟨t, id, none, none, some code, some msg⟩

/-- A live listener attached to a source: the subscribing client, the id it
subscribed under, and the numeric identity of its `CancellationToken`. -/
structure Listener where
  clientId : Nat
  subId : String
  tokenId : Nat
deriving DecidableEq

/-- Modelled from the spec: the Scalar Source collaborator contract
(spec section 6) - a current value plus subscribed listeners. -/
structure DataSource where
  value : Int
  listeners : List Listener

/-- Modelled from the spec: the Collection Source collaborator contract -
an ordered sequence plus subscribed listeners. -/
structure ArrayDataSource where
  data : List Int
  listeners : List Listener

/-- Modelled from the spec: the Duplex Source collaborator contract - the
scalar contract plus a record of client-originated upstream pushes. -/
structure DuplexDataSource where
  value : Int
  listeners : List Listener
  upstreamPushes : List Int

/-- A registry entry `{source, authenticator}` for a scalar source. -/
structure DSEndpoint where
  source : DataSource
  authenticator : Auth

/-- A registry entry `{source, authenticator}` for a collection source. -/
structure ADSEndpoint where
  source : ArrayDataSource
  authenticator : Auth

/-- A registry entry `{source, authenticator}` for a duplex source. -/
structure DDSEndpoint where
  source : DuplexDataSource
  authenticator : Auth

/-- The `Client` session object (`client.ts` lines 4-17): subscription map,
liveness timestamp (`none` before any processed frame), and the ordered list
of messages handed to `connection.send`. -/
structure Client where
  clientId : Nat
  subscriptions : List (String × Nat)
  timeSinceLastMessage : Option Nat
  outbox : List Message
deriving DecidableEq

/-- The `Client` class defines only a constructor, the `subscriptions` and
`connection` fields, `timeSinceLastMessage` and `sendMessage`. It has no
`dispose` member, although the close handler in `AurumServer.create` calls
`client.dispose()`; the absent member is modelled as `none`. -/
def Client.disposeMember : Option (Client → Client) := none

/-- Assoc-list lookup, modelling `Map.get` / `Map.has`. -/
def lookupA {α : Type} (m : List (String × α)) (k : String) : Option α :=
  match m with
  | [] => none
  | (k2, v) :: rest => if k2 = k then some v else lookupA rest k

/-- Assoc-list insertion modelling `Map.set`: replace in place when the key
exists (JS Maps keep insertion order), append otherwise. -/
def setAssoc {α : Type} (m : List (String × α)) (k : String) (v : α) : List (String × α) :=
  match m with
  | [] => [(k, v)]
  | (k2, v2) :: rest => if k2 = k then (k, v) :: rest else (k2, v2) :: setAssoc rest k v

/-- Assoc-list removal modelling `Map.delete`. -/
def delAssoc {α : Type} (m : List (String × α)) (k : String) : List (String × α) :=
  match m with
  | [] => []
  | (k2, v2) :: rest => if k2 = k then rest else (k2, v2) :: delAssoc rest k

/-- Locate the session object with the given client id. -/
def findClient (cs : List Client) (cid : Nat) : Option Client :=
  match cs with
  | [] => none
  | c :: rest => if c.clientId = cid then some c else findClient rest cid

/-- Apply `f` to the session object(s) with the given client id, modelling an
in-place mutation of the captured `Client` object. -/
def mapClients (cs : List Client) (cid : Nat) (f : Client → Client) : List Client :=
  cs.map fun c => if c.clientId = cid then f c else c

/-- The server's stored configuration. `hasOnError` records whether the
stored config holds an `onError` observer; see `createConfig` - the public
constructor never stores one, so in every reachable config this is false. -/
structure AurumServerConfig where
  maxMessageSize : Nat
  hasOnError : Bool

/-- `AurumServer.create` normalizes `maxMessageSize` with
`config?.maxMessageSize || 1048576`: an absent value, and also an explicit 0
(falsy in JS), fall back to the 1 MiB default. -/
def normalizeMaxMessageSize (m : Option Nat) : Nat :=
  match m with
  | none => 1048576
  | some v => if v = 0 then 1048576 else v

/-- The config actually stored by `AurumServer.create` (client.ts 98-104):
of the caller's config object it copies `onClientConnected`,
`onClientDisconnected`, `reuseServer`, the normalized `maxMessageSize` and
`port` - and nothing else. In particular the caller's `onError` observer
(`hook` here, true when the caller supplied one) is discarded: it is never
copied into the stored config, so every server built through the public
`create` has `hasOnError = false` and the `this.config.onError?.(...)`
invocation in `processMessage` is a permanent no-op. -/
def createConfig (hook : Bool) (maxMessageSize : Option Nat) : AurumServerConfig :=
  { maxMessageSize := normalizeMaxMessageSize maxMessageSize, hasOnError := false }

/-- The whole server state. `clients` is the heap of session objects (message
handlers hold references to them even after removal from the live list);
`wsServerClients` is the live array. `cancelledTokens` records every
`CancellationToken` on which `cancel()` has been called, and `nextTokenId`
numbers token allocations. `errorLog` records `config.onError?.(sender, msg)`
invocations (none can occur on a server whose config was built by
`createConfig`). -/
structure AurumServer where
  config : AurumServerConfig
  exposedDataSources : List (String × DSEndpoint)
  exposedDuplexDataSources : List (String × DDSEndpoint)
  exposedArrayDataSources : List (String × ADSEndpoint)
  wsServerClients : List Nat
  clients : List Client
  cancelledTokens : List Nat
  nextTokenId : Nat
  errorLog : List (Nat × String)

/-- `Client.sendMessage` on the session with id `cid`: append the envelope to
that session's outbound connection. -/
def AurumServer.sendTo (s : AurumServer) (cid : Nat) (m : Message) : AurumServer :=
  { s with clients := mapClients s.clients cid fun c => { c with outbox := c.outbox ++ [m] } }

/-- Client-to-server message kinds dispatched by `processMessage`; `UNKNOWN`
stands for any type tag outside the switch's cases. -/
inductive InboundType
  | LISTEN_DATASOURCE
  | LISTEN_DUPLEX_DATASOURCE
  | LISTEN_ARRAY_DATASOURCE
  | UPDATE_DUPLEX_DATASOURCE
  | HEARTBEAT
  | UNKNOWN
deriving DecidableEq

/-- A parsed inbound frame `{type, id, token, value}`. -/
structure InboundMessage where
  msgType : InboundType
  id : String
  token : String
  value : Int
deriving DecidableEq

/-- An inbound WebSocket frame: a text frame is characterized by its length
and its JSON parse result (`none` when `JSON.parse` would throw); any
non-string payload is `binary`. -/
inductive WsData
  | str (length : Nat) (parsed : Option InboundMessage)
  | binary

/-- `listenDataSource` (`client.ts` lines 172-200): on a registry hit a fresh
`CancellationToken` is created and stored in the sender's subscription map
before the authorization check; on `authenticator(token, "read")` success,
`listenAndRepeat` attaches the listener and immediately fires it with the
current value; on denial a 401 error envelope is sent; on a miss a 404. -/
def AurumServer.listenDataSource (s : AurumServer) (message : InboundMessage) (senderId : Nat) : AurumServer :=
  match lookupA s.exposedDataSources message.id with
  | some endpoint =>
      let tokenId := s.nextTokenId
      let s1 : AurumServer := { s with nextTokenId := s.nextTokenId + 1 }
      let s2 : AurumServer :=
        { s1 with clients := mapClients s1.clients senderId fun c =>
            { c with subscriptions := setAssoc c.subscriptions message.id tokenId } }
      if endpoint.authenticator message.token Op.read then
        let ep2 : DSEndpoint :=
          { endpoint with source :=
              { endpoint.source with listeners :=
                  endpoint.source.listeners ++ [⟨senderId, message.id, tokenId⟩] } }
        let s3 : AurumServer :=
          { s2 with exposedDataSources := setAssoc s2.exposedDataSources message.id ep2 }
        s3.sendTo senderId (mkUpdate message.id endpoint.source.value)
      else
        s2.sendTo senderId (mkErr RemoteProtocol.LISTEN_DATASOURCE_ERR message.id 401 "Unauthorized")
  | none =>
      s.sendTo senderId (mkErr RemoteProtocol.LISTEN_DATASOURCE_ERR message.id 404 "No such datasource")

/-- Modelled from the spec: the initial replay event that a Collection
Source's `listenAndRepeat` hands to a fresh listener, carrying the whole
current sequence as an append. Its exact shape is internal to the aurumjs
collaborator; no claim depends on it. -/
def initialArrayChange (data : List Int) : RawChange :=
  { operationField := some "add", operationDetailed := "append",
    previousState := none, newState := some data,
    index := some 0, index2 := none, count := some data.length, items := some data }

/-- `listenArrayDataSource` (`client.ts` lines 202-234): same gating as the
scalar handler; the success callback clones each change and deletes the
`operation`, `previousState` and `newState` fields unconditionally before
sending `UPDATE_ARRAY_DATASOURCE {id, change}`. -/
def AurumServer.listenArrayDataSource (s : AurumServer) (message : InboundMessage) (senderId : Nat) : AurumServer :=
  match lookupA s.exposedArrayDataSources message.id with
  | some endpoint =>
      let tokenId := s.nextTokenId
      let s1 : AurumServer := { s with nextTokenId := s.nextTokenId + 1 }
      let s2 : AurumServer :=
        { s1 with clients := mapClients s1.clients senderId fun c =>
            { c with subscriptions := setAssoc c.subscriptions message.id tokenId } }
      if endpoint.authenticator message.token Op.read then
        let ep2 : ADSEndpoint :=
          { endpoint with source :=
              { endpoint.source with listeners :=
                  endpoint.source.listeners ++ [⟨senderId, message.id, tokenId⟩] } }
        let s3 : AurumServer :=
          { s2 with exposedArrayDataSources := setAssoc s2.exposedArrayDataSources message.id ep2 }
        s3.sendTo senderId
          (mkArrayUpdate message.id (stripChange (initialArrayChange endpoint.source.data)))
      else
        s2.sendTo senderId (mkErr RemoteProtocol.LISTEN_ARRAY_DATASOURCE_ERR message.id 401 "Unauthorized")
  | none =>
      s.sendTo senderId (mkErr RemoteProtocol.LISTEN_ARRAY_DATASOURCE_ERR message.id 404 "No such array datasource")

/-- `listenDuplexDataSource` (`client.ts` lines 236-270): same shape as the
scalar handler against the duplex registry. -/
def AurumServer.listenDuplexDataSource (s : AurumServer) (message : InboundMessage) (senderId : Nat) : AurumServer :=
  match lookupA s.exposedDuplexDataSources message.id with
  | some endpoint =>
      let tokenId := s.nextTokenId
      let s1 : AurumServer := { s with nextTokenId := s.nextTokenId + 1 }
      let s2 : AurumServer :=
        { s1 with clients := mapClients s1.clients senderId fun c =>
            { c with subscriptions := setAssoc c.subscriptions message.id tokenId } }
      if endpoint.authenticator message.token Op.read then
        let ep2 : DDSEndpoint :=
          { endpoint with source :=
              { endpoint.source with listeners :=
                  endpoint.source.listeners ++ [⟨senderId, message.id, tokenId⟩] } }
        let s3 : AurumServer :=
          { s2 with exposedDuplexDataSources := setAssoc s2.exposedDuplexDataSources message.id ep2 }
        s3.sendTo senderId (mkDuplexUpdate message.id endpoint.source.value)
      else
        s2.sendTo senderId (mkErr RemoteProtocol.LISTEN_DUPLEX_DATASOURCE_ERR message.id 401 "Unauthorized")
  | none =>
      s.sendTo senderId (mkErr RemoteProtocol.LISTEN_DUPLEX_DATASOURCE_ERR message.id 404 "No such duplex datasource")

/-- `updateDuplexDataSource` (`client.ts` lines 272-296): on a hit with
`authenticator(token, "write")` true, `source.updateUpstream(message.value)`
is called and nothing is sent; on denial a 401 envelope; on a miss a 404.
The upstream push is modelled per the spec's Duplex Source contract as
recording the pushed value. -/
def AurumServer.updateDuplexDataSource (s : AurumServer) (message : InboundMessage) (senderId : Nat) : AurumServer :=
  match lookupA s.exposedDuplexDataSources message.id with
  | some endpoint =>
      if endpoint.authenticator message.token Op.write then
        let ep2 : DDSEndpoint :=
          { endpoint with source :=
              { endpoint.source with upstreamPushes :=
                  endpoint.source.upstreamPushes ++ [message.value] } }
        { s with exposedDuplexDataSources := setAssoc s.exposedDuplexDataSources message.id ep2 }
      else
        s.sendTo senderId (mkErr RemoteProtocol.UPDATE_DUPLEX_DATASOURCE_ERR message.id 401 "Unauthorized")
  | none =>
      s.sendTo senderId (mkErr RemoteProtocol.UPDATE_DUPLEX_DATASOURCE_ERR message.id 404 "No such duplex datasource")

/-- `cancelSubscriptionToExposedSource` (`client.ts` lines 298-305): cancel
the stored token and delete the map entry when present, otherwise a no-op.
(The method is unreachable from `processMessage`; it is kept for fidelity.) -/
def AurumServer.cancelSubscriptionToExposedSource (s : AurumServer) (senderId : Nat) (url : String) : AurumServer :=
  match findClient s.clients senderId with
  | none => s
  | some c =>
    match lookupA c.subscriptions url with
    | none => s
    | some t =>
      { s with
        cancelledTokens := s.cancelledTokens ++ [t],
        clients := mapClients s.clients senderId fun c2 =>
          { c2 with subscriptions := delAssoc c2.subscriptions url } }

/-- `processMessage` (`client.ts` lines 135-170): non-string frames are
ignored; string frames at or above `maxMessageSize` are dropped before
parsing, with the `config.onError?.(sender, msg)` invocation at the source's
line 138 firing only when the stored config holds an observer - which
configs built by `create` never do, `create` not copying `onError`
(client.ts 98-104); a parse failure
is logged locally and dropped; on parse success `timeSinceLastMessage` is
set before the switch, whose cases dispatch the four handlers, and
`HEARTBEAT` and unknown tags fall through with no further effect. -/
def AurumServer.processMessage (s : AurumServer) (senderId : Nat) (data : WsData) (now : Nat) : AurumServer :=
  match data with
  | WsData.binary => s
  | WsData.str len parsed =>
    if s.config.maxMessageSize ≤ len then
      if s.config.hasOnError then
        { s with errorLog := s.errorLog ++
            [(senderId, "Received message with size " ++ toString len ++
              " max allowed is " ++ toString s.config.maxMessageSize)] }
      else s
    else
      match parsed with
      | none => s
      | some message =>
        let s1 : AurumServer :=
          { s with clients := mapClients s.clients senderId fun c =>
              { c with timeSinceLastMessage := some now } }
        match message.msgType with
        | InboundType.LISTEN_DATASOURCE => s1.listenDataSource message senderId
        | InboundType.LISTEN_DUPLEX_DATASOURCE => s1.listenDuplexDataSource message senderId
        | InboundType.LISTEN_ARRAY_DATASOURCE => s1.listenArrayDataSource message senderId
        | InboundType.UPDATE_DUPLEX_DATASOURCE => s1.updateDuplexDataSource message senderId
        | InboundType.HEARTBEAT => s1
        | InboundType.UNKNOWN => s1

/-- The `close` handler installed in `AurumServer.create` (`client.ts`
lines 121-128): splice the client out of `wsServerClients`, then call
`client.dispose()`. `Client` declares no `dispose` member, so the call
raises a TypeError; the returned flag records whether the handler threw. -/
def AurumServer.onClose (s : AurumServer) (cid : Nat) : AurumServer × Bool :=
  let s1 : AurumServer := { s with wsServerClients := s.wsServerClients.erase cid }
  match Client.disposeMember with
  | some f => ({ s1 with clients := mapClients s1.clients cid f }, false)
  | none => (s1, true)

/-- `exposeDataSource` (`client.ts` lines 307-316): the optional
`authenticate` parameter defaults to `() => true` when omitted. -/
def AurumServer.exposeDataSource (s : AurumServer) (id : String) (source : DataSource)
    (authenticate : Option Auth) : AurumServer :=
  let entry : DSEndpoint := { source := source, authenticator := authenticate.getD allowAll }
  { s with exposedDataSources := setAssoc s.exposedDataSources id entry }

/-- `exposeArrayDataSource` (`client.ts` lines 318-327): same default. -/
def AurumServer.exposeArrayDataSource (s : AurumServer) (id : String) (source : ArrayDataSource)
    (authenticate : Option Auth) : AurumServer :=
  let entry : ADSEndpoint := { source := source, authenticator := authenticate.getD allowAll }
  { s with exposedArrayDataSources := setAssoc s.exposedArrayDataSources id entry }

/-- `exposeDuplexDataSource` (`client.ts` lines 329-341): same default. -/
def AurumServer.exposeDuplexDataSource (s : AurumServer) (id : String) (source : DuplexDataSource)
    (authenticate : Option Auth) : AurumServer :=
  let entry : DDSEndpoint := { source := source, authenticator := authenticate.getD allowAll }
  { s with exposedDuplexDataSources := setAssoc s.exposedDuplexDataSources id entry }

/-- Modelled from the spec: a source notifies its listeners in registration
order (spec sections 3 and 5); a listener whose cancellation token has been
cancelled is skipped - cancellation suppresses the send at delivery time -
and every other listener receives the message built by its installed
callback closure (parameterized here by the id it captured). -/
def deliverWith (mk : String → Message) (s : AurumServer) (ls : List Listener) : AurumServer :=
  ls.foldl (fun acc l =>
    if l.tokenId ∈ acc.cancelledTokens then acc
    else acc.sendTo l.clientId (mk l.subId)) s

/-- Delivery of one scalar value: each live listener's callback is the
closure installed by `listenDataSource`, sending `UPDATE_DATASOURCE
{id, value}` to its client. -/
def deliverScalar (s : AurumServer) (ls : List Listener) (v : Int) : AurumServer :=
  deliverWith (fun sid => mkUpdate sid v) s ls

/-- Delivery of one collection-mutation event: each live listener's callback
is the closure installed by `listenArrayDataSource`, which ships the change
through `stripChange`. -/
def deliverArray (s : AurumServer) (ls : List Listener) (c : RawChange) : AurumServer :=
  deliverWith (fun sid => mkArrayUpdate sid (stripChange c)) s ls

/-- Modelled from the spec: the embedding application mutates an exposed
scalar source (`source.update(v)` in aurumjs): the stored value changes and
every listener is notified in order. -/
def AurumServer.updateExposedDataSource (s : AurumServer) (id : String) (v : Int) : AurumServer :=
  match lookupA s.exposedDataSources id with
  | none => s
  | some endpoint =>
    let ep2 : DSEndpoint := { endpoint with source := { endpoint.source with value := v } }
    let s1 : AurumServer :=
      { s with exposedDataSources := setAssoc s.exposedDataSources id ep2 }
    deliverScalar s1 endpoint.source.listeners v

/-- A sequence of scalar mutations, in emission order. -/
def AurumServer.updateMany (s : AurumServer) (id : String) (vs : List Int) : AurumServer :=
  vs.foldl (fun acc v => acc.updateExposedDataSource id v) s

/-- Modelled from the spec: a collection source emits one mutation event to
its listeners. (The collaborator's own data update is internal to it.) -/
def AurumServer.emitArrayChange (s : AurumServer) (id : String) (c : RawChange) : AurumServer :=
  match lookupA s.exposedArrayDataSources id with
  | none => s
  | some endpoint => deliverArray s endpoint.source.listeners c

/-- A `Router` registry entry (`router.ts` lines 3-6). The declared TS type
has a non-optional `authenticator(token, operation): boolean`, but
`exposeArrayDataSource` and `exposeDuplexDataSource` can store `undefined`
in it; `Option` records whether a function was actually stored. -/
structure RouterEndpoint where
  sourceTag : String
  authenticator : Option Auth

/-- Invoking `endpoint.authenticator(token, op)` on a router entry: `none`
means the stored authenticator was `undefined`, so the call raises a
TypeError instead of returning a boolean. -/
def RouterEndpoint.invokeAuthenticator (e : RouterEndpoint) (tok : String) (op : Op) : Option Bool :=
  e.authenticator.map fun f => f tok op

/-- The `Router` class (`router.ts` lines 8-86), with sources abstracted to
tags (the Router never inspects them). -/
structure Router where
  exposedDataSources : List (String × RouterEndpoint)
  exposedDuplexDataSources : List (String × RouterEndpoint)
  exposedArrayDataSources : List (String × RouterEndpoint)

/-- `Router.exposeDataSource` (`router.ts` lines 54-63): the `authenticate`
parameter has the default `= () => true`. -/
def Router.exposeDataSource (r : Router) (id : String) (sourceTag : String)
    (authenticate : Option Auth) : Router :=
  let entry : RouterEndpoint := { sourceTag := sourceTag, authenticator := some (authenticate.getD allowAll) }
  { r with exposedDataSources := setAssoc r.exposedDataSources id entry }

/-- `Router.exposeArrayDataSource` (`router.ts` lines 65-74): the parameter
is declared `authenticate?:` with no default, so an omitted argument stores
`undefined` as the entry's authenticator. -/
def Router.exposeArrayDataSource (r : Router) (id : String) (sourceTag : String)
    (authenticate : Option Auth) : Router :=
  let entry : RouterEndpoint := { sourceTag := sourceTag, authenticator := authenticate }
  { r with exposedArrayDataSources := setAssoc r.exposedArrayDataSources id entry }

/-- `Router.exposeDuplexDataSource` (`router.ts` lines 76-85): also
`authenticate?:` with no default. -/
def Router.exposeDuplexDataSource (r : Router) (id : String) (sourceTag : String)
    (authenticate : Option Auth) : Router :=
  let entry : RouterEndpoint := { sourceTag := sourceTag, authenticator := authenticate }
  { r with exposedDuplexDataSources := setAssoc r.exposedDuplexDataSources id entry }

/-- The session's subscription map, observed through the heap. -/
def AurumServer.subsOf (s : AurumServer) (cid : Nat) : List (String × Nat) :=
  match findClient s.clients cid with
  | some c => c.subscriptions
  | none => []

/-- The ordered list of messages handed to the session's connection. -/
def AurumServer.outboxOf (s : AurumServer) (cid : Nat) : List Message :=
  match findClient s.clients cid with
  | some c => c.outbox
  | none => []

/-- The session's liveness timestamp. -/
def AurumServer.lastActivityOf (s : AurumServer) (cid : Nat) : Option Nat :=
  match findClient s.clients cid with
  | some c => c.timeSinceLastMessage
  | none => none

/-- The recorded upstream pushes of an exposed duplex source. -/
def AurumServer.pushesOf (s : AurumServer) (id : String) : List Int :=
  match lookupA s.exposedDuplexDataSources id with
  | some e => e.source.upstreamPushes
  | none => []

/-- The listeners attached to an exposed scalar source. -/
def AurumServer.scalarListenersOf (s : AurumServer) (id : String) : List Listener :=
  match lookupA s.exposedDataSources id with
  | some e => e.source.listeners
  | none => []

/-- A fresh session object, as constructed on connection accept. -/
def demoClient : Client :=
  { clientId := 0, subscriptions := [], timeSinceLastMessage := none, outbox := [] }

/-- A concrete server with the default 1 MiB frame limit, one connected
client (id 0), empty registries, and - like every config the public
`create` can build - no stored `onError` observer, even though the caller
supplied one (the hook is discarded by `createConfig`). -/
def baseServer : AurumServer :=
  { config := createConfig true none,
    exposedDataSources := [], exposedDuplexDataSources := [], exposedArrayDataSources := [],
    wsServerClients := [0], clients := [demoClient], cancelledTokens := [],
    nextTokenId := 0, errorLog := [] }

/-- The spec scenario: scalar "temperature" = 20 exposed with the default
(omitted, hence allow-all) authorizer. -/
def temperatureServer : AurumServer :=
  baseServer.exposeDataSource "temperature" { value := 20, listeners := [] } none

/-- The subscribe-scalar frame for "temperature" with token "t". -/
def temperatureSubscribeMsg : InboundMessage :=
  ⟨InboundType.LISTEN_DATASOURCE, "temperature", "t", 0⟩

/-- The server after client 0 successfully subscribed to "temperature". -/
def temperatureSubscribed : AurumServer :=
  temperatureServer.listenDataSource temperatureSubscribeMsg 0

/-- The server after client 0 subscribed to "temperature" twice. -/
def doubleSubscribed : AurumServer :=
  temperatureSubscribed.listenDataSource ⟨InboundType.LISTEN_DATASOURCE, "temperature", "t2", 0⟩ 0

/-- The canonical double-subscribe run with an arbitrary initial value: the
scalar source holds `v`, client 0 subscribes to it twice. -/
def doubleSubscribe (v : Int) : AurumServer :=
  ((baseServer.exposeDataSource "temperature" { value := v, listeners := [] }
      none).listenDataSource temperatureSubscribeMsg 0).listenDataSource
    ⟨InboundType.LISTEN_DATASOURCE, "temperature", "t2", 0⟩ 0

/-- The spec scenario collection "items" = [1, 2, 3], exposed with the
default authorizer. -/
def itemsServer : AurumServer :=
  baseServer.exposeArrayDataSource "items" { data := [1, 2, 3], listeners := [] } none

/-- The server after client 0 successfully subscribed to "items". -/
def itemsSubscribed : AurumServer :=
  itemsServer.listenArrayDataSource ⟨InboundType.LISTEN_ARRAY_DATASOURCE, "items", "t", 0⟩ 0

/-- A merge mutation event carrying both snapshots. -/
def mergeExample : RawChange :=
  { operationField := some "merge", operationDetailed := "merge",
    previousState := some [1, 2, 3], newState := some [4, 5],
    index := none, index2 := none, count := none, items := none }

/-- An authorizer denying every request. -/
def denyAll : Auth := fun _ _ => false

/-- A scalar source whose authorizer denies everything. -/
def secretServer : AurumServer :=
  baseServer.exposeDataSource "secret" { value := 7, listeners := [] } (some denyAll)

/-- A duplex source "chat" = 5 with the default authorizer. -/
def chatServer : AurumServer :=
  baseServer.exposeDuplexDataSource "chat" { value := 5, listeners := [], upstreamPushes := [] } none

/-- A duplex source "chat" = 5 whose authorizer denies everything. -/
def chatServerDeny : AurumServer :=
  baseServer.exposeDuplexDataSource "chat" { value := 5, listeners := [], upstreamPushes := [] }
    (some denyAll)

/-- A server with a tiny frame limit, for exercising the size boundary; its
config is again one built by `createConfig`, the supplied observer hook
discarded. -/
def smallServer : AurumServer :=
  { baseServer with config := createConfig true (some 5) }

/-- A parseable five-character heartbeat frame. -/
def frame5 : WsData := WsData.str 5 (some ⟨InboundType.HEARTBEAT, "", "", 0⟩)

/-- A router with empty registries. -/
def emptyRouter : Router := ⟨[], [], []⟩

/-- A server exposing a scalar, a collection and a duplex source under the
same id "secret", all with a denying authorizer. -/
def tripleDenyServer : AurumServer :=
  ((baseServer.exposeDataSource "secret" { value := 7, listeners := [] }
      (some denyAll)).exposeArrayDataSource "secret" { data := [1], listeners := [] }
        (some denyAll)).exposeDuplexDataSource "secret"
          { value := 5, listeners := [], upstreamPushes := [] } (some denyAll)

/-- The subscribe frame for "secret" with token "t". -/
def secretMsg (t : InboundType) : InboundMessage := ⟨t, "secret", "t", 0⟩

theorem lookupA_setAssoc_self {α : Type} (m : List (String × α)) (k : String) (v : α) :
    lookupA (setAssoc m k v) k = some v := by
  induction m with
  | nil => simp [setAssoc, lookupA]
  | cons p rest ih =>
    obtain ⟨k2, v2⟩ := p
    by_cases h : k2 = k
    · simp [setAssoc, h, lookupA]
    · simp [setAssoc, h, lookupA, ih]

theorem findClient_mapClients (cs : List Client) (cid cid2 : Nat) (f : Client → Client)
    (hf : ∀ c2, (f c2).clientId = c2.clientId) :
    findClient (mapClients cs cid2 f) cid =
      if cid2 = cid then (findClient cs cid).map f else findClient cs cid := by
  induction cs with
  | nil =>
    simp only [mapClients, List.map_nil, findClient, Option.map_none]
    split <;> rfl
  | cons c rest ih =>
    simp only [mapClients, List.map_cons] at *
    by_cases h1 : c.clientId = cid2 <;> by_cases h2 : c.clientId = cid
    · have hq : cid2 = cid := by omega
      simp [findClient, h1, h2, hf, hq]
    · have hq : ¬ cid2 = cid := by omega
      simp [findClient, h1, h2, hf, hq, ih, hq]
    · have hq : ¬ cid2 = cid := by omega
      have hq2 : ¬ cid = cid2 := by omega
      simp [findClient, h1, h2, hq, hq2]
    · simp [findClient, h1, h2, ih]

theorem findClient_sendTo (s : AurumServer) (cid cid2 : Nat) (m : Message) :
    findClient (s.sendTo cid2 m).clients cid =
      if cid2 = cid then (findClient s.clients cid).map
        (fun c => { c with outbox := c.outbox ++ [m] }) else findClient s.clients cid := by
  unfold AurumServer.sendTo
  exact findClient_mapClients s.clients cid cid2 _ (fun c2 => rfl)

theorem subsOf_sendTo (s : AurumServer) (cid cid2 : Nat) (m : Message) :
    (s.sendTo cid2 m).subsOf cid = s.subsOf cid := by
  unfold AurumServer.subsOf
  rw [findClient_sendTo]
  by_cases h : cid2 = cid
  · rw [if_pos h]
    cases findClient s.clients cid <;> rfl
  · rw [if_neg h]

theorem lastActivityOf_sendTo (s : AurumServer) (cid cid2 : Nat) (m : Message) :
    (s.sendTo cid2 m).lastActivityOf cid = s.lastActivityOf cid := by
  unfold AurumServer.lastActivityOf
  rw [findClient_sendTo]
  by_cases h : cid2 = cid
  · rw [if_pos h]
    cases findClient s.clients cid <;> rfl
  · rw [if_neg h]

theorem outboxOf_sendTo_self (s : AurumServer) (cid : Nat) (m : Message) (c : Client)
    (hfc : findClient s.clients cid = some c) :
    (s.sendTo cid m).outboxOf cid = s.outboxOf cid ++ [m] := by
  unfold AurumServer.outboxOf
  rw [findClient_sendTo, if_pos rfl, hfc]
  rfl

theorem outboxOf_sendTo_ne (s : AurumServer) (cid cid2 : Nat) (m : Message)
    (h : cid2 ≠ cid) :
    (s.sendTo cid2 m).outboxOf cid = s.outboxOf cid := by
  unfold AurumServer.outboxOf
  rw [findClient_sendTo, if_neg h]

theorem findClient_sendTo_isSome (s : AurumServer) (cid cid2 : Nat) (m : Message) :
    (findClient (s.sendTo cid2 m).clients cid).isSome = (findClient s.clients cid).isSome := by
  rw [findClient_sendTo]
  by_cases h : cid2 = cid
  · rw [if_pos h]
    cases findClient s.clients cid <;> rfl
  · rw [if_neg h]

theorem cancelledTokens_deliverWith (mk : String → Message) (ls : List Listener)
    (s : AurumServer) :
    (deliverWith mk s ls).cancelledTokens = s.cancelledTokens := by
  induction ls generalizing s with
  | nil => rfl
  | cons l rest ih =>
    show (deliverWith mk (if l.tokenId ∈ s.cancelledTokens then s
      else s.sendTo l.clientId (mk l.subId)) rest).cancelledTokens = s.cancelledTokens
    rw [ih]
    split <;> rfl

theorem exposedDataSources_deliverWith (mk : String → Message) (ls : List Listener)
    (s : AurumServer) :
    (deliverWith mk s ls).exposedDataSources = s.exposedDataSources := by
  induction ls generalizing s with
  | nil => rfl
  | cons l rest ih =>
    show (deliverWith mk (if l.tokenId ∈ s.cancelledTokens then s
      else s.sendTo l.clientId (mk l.subId)) rest).exposedDataSources = s.exposedDataSources
    rw [ih]
    split <;> rfl

theorem findClient_deliverWith_isSome (mk : String → Message) (ls : List Listener)
    (s : AurumServer) (cid : Nat) :
    (findClient (deliverWith mk s ls).clients cid).isSome = (findClient s.clients cid).isSome := by
  induction ls generalizing s with
  | nil => rfl
  | cons l rest ih =>
    show (findClient (deliverWith mk (if l.tokenId ∈ s.cancelledTokens then s
      else s.sendTo l.clientId (mk l.subId)) rest).clients cid).isSome = _
    rw [ih]
    split
    · rfl
    · exact findClient_sendTo_isSome s cid l.clientId _

theorem findClient_deliverWith_untouched (mk : String → Message) (ls : List Listener)
    (s : AurumServer) (cid : Nat) (h : ∀ l ∈ ls, l.clientId ≠ cid) :
    findClient (deliverWith mk s ls).clients cid = findClient s.clients cid := by
  induction ls generalizing s with
  | nil => rfl
  | cons l rest ih =>
    show findClient (deliverWith mk (if l.tokenId ∈ s.cancelledTokens then s
      else s.sendTo l.clientId (mk l.subId)) rest).clients cid = _
    rw [ih _ (fun l2 hl2 => h l2 (List.mem_cons_of_mem _ hl2))]
    split
    · rfl
    · rw [findClient_sendTo, if_neg (h l (List.mem_cons_self _ _))]

theorem deliverWith_append (mk : String → Message) (s : AurumServer)
    (ls1 ls2 : List Listener) :
    deliverWith mk s (ls1 ++ ls2) = deliverWith mk (deliverWith mk s ls1) ls2 := by
  unfold deliverWith
  rw [List.foldl_append]

theorem outboxOf_deliverWith_last (mk : String → Message) (ls : List Listener)
    (s : AurumServer) (cid : Nat) (sid : String) (t : Nat) (c : Client)
    (h : ∀ l ∈ ls, l.clientId ≠ cid)
    (hfc : findClient s.clients cid = some c)
    (ht : t ∉ s.cancelledTokens) :
    (deliverWith mk s (ls ++ [⟨cid, sid, t⟩])).outboxOf cid =
      s.outboxOf cid ++ [mk sid] := by
  rw [deliverWith_append]
  have hfind := findClient_deliverWith_untouched mk ls s cid h
  show ((if t ∈ (deliverWith mk s ls).cancelledTokens then deliverWith mk s ls
    else (deliverWith mk s ls).sendTo cid (mk sid))).outboxOf cid = _
  rw [cancelledTokens_deliverWith, if_neg ht]
  rw [outboxOf_sendTo_self _ _ _ c (by rw [hfind]; exact hfc)]
  unfold AurumServer.outboxOf
  rw [hfind]

/-- The superseded emitter kept the snapshots exactly for merge events: on a
merge the change passes through unmodified, otherwise both snapshots are
deleted and the rest is kept. -/
theorem stripChangeLegacy_spec (c : RawChange) :
    (c.operationField = some "merge" → stripChangeLegacy c = c) ∧
    (c.operationField ≠ some "merge" →
      (stripChangeLegacy c).previousState = none ∧
      (stripChangeLegacy c).newState = none ∧
      (stripChangeLegacy c).operationField = c.operationField ∧
      (stripChangeLegacy c).operationDetailed = c.operationDetailed) := by
  constructor
  · intro h
    unfold stripChangeLegacy
    rw [if_pos h]
  · intro h
    unfold stripChangeLegacy
    rw [if_neg h]
    exact ⟨rfl, rfl, rfl, rfl⟩

/-- C2: counterexample. A merge mutation event carrying both snapshots is
forwarded to a subscribed client with both snapshot fields absent: the
current emitter deletes `previousState`/`newState` (and the coarse
`operation` tag) unconditionally, so the "present iff merge" invariant is
false at this input. -/
theorem c2_counterexample :
    mergeExample.operationField = some "merge" ∧
    mergeExample.previousState.isSome ∧ mergeExample.newState.isSome ∧
    ((itemsSubscribed.emitArrayChange "items" mergeExample).outboxOf 0).getLast? =
      some (mkArrayUpdate "items" (stripChange mergeExample)) ∧
    (stripChange mergeExample).previousState = none ∧
    (stripChange mergeExample).newState = none := by
  decide

/-- C2 (amended): every collection-mutation event forwarded to a subscribed
client reaches the wire through `stripChange`: the `previousState` and
`newState` snapshot fields are absent for every mutation kind, merge
included, the coarse `operation` tag is also stripped, and the detailed kind
tag together with the positional/value fields is retained. -/
theorem c2_amended (s : AurumServer) (id : String) (ep : ADSEndpoint) (ls : List Listener)
    (cid t : Nat) (c : Client)
    (hep : lookupA s.exposedArrayDataSources id = some ep)
    (hls : ep.source.listeners = ls ++ [⟨cid, id, t⟩])
    (h : ∀ l ∈ ls, l.clientId ≠ cid)
    (hfc : findClient s.clients cid = some c)
    (ht : t ∉ s.cancelledTokens) :
    ∀ ch : RawChange,
      (s.emitArrayChange id ch).outboxOf cid =
        s.outboxOf cid ++ [mkArrayUpdate id (stripChange ch)] ∧
      (stripChange ch).previousState = none ∧
      (stripChange ch).newState = none ∧
      (stripChange ch).operationField = none ∧
      (stripChange ch).operationDetailed = ch.operationDetailed ∧
      (stripChange ch).index = ch.index ∧
      (stripChange ch).index2 = ch.index2 ∧
      (stripChange ch).count = ch.count ∧
      (stripChange ch).items = ch.items := by
  intro ch
  refine ⟨?_, rfl, rfl, rfl, rfl, rfl, rfl, rfl, rfl⟩
  unfold AurumServer.emitArrayChange
  rw [hep]
  show (deliverArray s ep.source.listeners ch).outboxOf cid = _
  unfold deliverArray
  rw [hls]
  exact outboxOf_deliverWith_last _ ls s cid id t c h hfc ht

/-- C2 witness: the amended emission theorem applied to the concrete
subscribed "items" collection and the concrete merge event. -/
theorem c2_amended_witness :
    (itemsSubscribed.emitArrayChange "items" mergeExample).outboxOf 0 =
      itemsSubscribed.outboxOf 0 ++ [mkArrayUpdate "items" (stripChange mergeExample)] :=
  (c2_amended itemsSubscribed "items"
    { source := { data := [1, 2, 3], listeners := [⟨0, "items", 0⟩] }, authenticator := allowAll }
    [] 0 0
    { clientId := 0, subscriptions := [("items", 0)], timeSinceLastMessage := none,
      outbox := [mkArrayUpdate "items" (stripChange (initialArrayChange [1, 2, 3]))] }
    rfl rfl (fun l hl => absurd hl (List.not_mem_nil l)) rfl (by decide) mergeExample).1

/-- C9: the three `AurumServer` expose methods and `Router.exposeDataSource`
store the allow-all default when the authorizer is omitted, but
`Router.exposeArrayDataSource` and `Router.exposeDuplexDataSource` have no
default: they store `undefined`, violating the declared non-optional
`authenticator` field type, and invoking the stored authorizer on such an
entry faults (returns no boolean) instead of allowing. -/
theorem c9_default_authorizer :
    (∀ tok op, (lookupA (baseServer.exposeDataSource "a" ⟨0, []⟩ none).exposedDataSources "a").map
        (fun e => e.authenticator tok op) = some true) ∧
    (∀ tok op, (lookupA (baseServer.exposeArrayDataSource "a" ⟨[], []⟩ none).exposedArrayDataSources "a").map
        (fun e => e.authenticator tok op) = some true) ∧
    (∀ tok op, (lookupA (baseServer.exposeDuplexDataSource "a" ⟨0, [], []⟩ none).exposedDuplexDataSources "a").map
        (fun e => e.authenticator tok op) = some true) ∧
    (∀ tok op, (lookupA (emptyRouter.exposeDataSource "a" "src" none).exposedDataSources "a").map
        (fun e => e.invokeAuthenticator tok op) = some (some true)) ∧
    ((lookupA (emptyRouter.exposeArrayDataSource "a" "src" none).exposedArrayDataSources "a").map
        RouterEndpoint.authenticator = some none) ∧
    (∀ tok op, (lookupA (emptyRouter.exposeArrayDataSource "a" "src" none).exposedArrayDataSources "a").map
        (fun e => e.invokeAuthenticator tok op) = some none) ∧
    ((lookupA (emptyRouter.exposeDuplexDataSource "a" "src" none).exposedDuplexDataSources "a").map
        RouterEndpoint.authenticator = some none) := by
  exact ⟨fun tok op => rfl, fun tok op => rfl, fun tok op => rfl, fun tok op => rfl,
    rfl, fun tok op => rfl, rfl⟩

/-- C7: counterexample. A five-character parseable frame against a
five-byte limit does not exceed the maximum, yet the `>=` size check rejects
it (the server state, the liveness timestamp included, is bit-for-bit
unchanged, so nothing was parsed and no response sent); and the rejection
notifies no observer: the error log stays empty, because `create` discarded
the `onError` hook the caller supplied - the stored config has none. -/
theorem c7_counterexample :
    ¬ (5 > smallServer.config.maxMessageSize) ∧
    smallServer.processMessage 0 frame5 99 = smallServer ∧
    (smallServer.processMessage 0 frame5 99).lastActivityOf 0 = none ∧
    (smallServer.processMessage 0 frame5 99).errorLog = [] ∧
    (createConfig true (some 5)).hasOnError = false := by
  exact ⟨by decide, rfl, by decide, by decide, rfl⟩

/-- C7 (amended): on every server whose config was built by the public
`create` normalization, a frame whose serialized size is greater than or
equal to the configured maximum is dropped before parsing and the server
state is bit-for-bit unchanged - no response is sent and, contrary to the
original claim, the optional error observer is NOT notified, because
`create` never copies `onError` into the stored config (its `hasOnError`
is false whatever hook the caller supplied); every frame strictly below
the maximum passes the size check, its handling independent of its length.
The omitted configuration value defaults to 1 MiB (1048576). -/
theorem c7_amended (s : AurumServer) (senderId : Nat) (len : Nat)
    (parsed : Option InboundMessage) (now : Nat) (hook : Bool) (userMax : Option Nat)
    (hcfg : s.config = createConfig hook userMax) :
    (s.config.maxMessageSize ≤ len →
      s.processMessage senderId (WsData.str len parsed) now = s) ∧
    (len < s.config.maxMessageSize → ∀ len2, len2 < s.config.maxMessageSize →
      s.processMessage senderId (WsData.str len parsed) now =
        s.processMessage senderId (WsData.str len2 parsed) now) ∧
    (createConfig hook userMax).hasOnError = false ∧
    normalizeMaxMessageSize none = 1048576 := by
  have hfalse : s.config.hasOnError = false := by
    rw [hcfg]
    rfl
  refine ⟨?_, ?_, rfl, rfl⟩
  · intro h
    simp only [AurumServer.processMessage]
    rw [if_pos h, hfalse, if_neg Bool.false_ne_true]
  · intro h len2 h2
    simp only [AurumServer.processMessage]
    rw [if_neg (by omega), if_neg (by omega)]

/-- C7 witness: the amended theorem applied to the concrete five-byte-limit
create-built server, at the boundary length 5 (dropped with the state
unchanged, nobody notified) and below it at lengths 3 and 4. -/
theorem c7_amended_witness :
    smallServer.processMessage 0 (WsData.str 5 (some ⟨InboundType.HEARTBEAT, "", "", 0⟩)) 99 =
      smallServer ∧
    smallServer.processMessage 0 (WsData.str 3 (some ⟨InboundType.HEARTBEAT, "", "", 0⟩)) 99 =
      smallServer.processMessage 0 (WsData.str 4 (some ⟨InboundType.HEARTBEAT, "", "", 0⟩)) 99 := by
  constructor
  · exact (c7_amended smallServer 0 5 (some ⟨InboundType.HEARTBEAT, "", "", 0⟩) 99
      true (some 5) rfl).1 (by decide)
  · exact (c7_amended smallServer 0 3 (some ⟨InboundType.HEARTBEAT, "", "", 0⟩) 99
      true (some 5) rfl).2.1 (by decide) 4 (by decide)

/-- C8: counterexample. After client 0 subscribes twice to "temperature",
the source holds two live listeners for the pair (0, "temperature"); the
session's map holds only the second handle (token 1), the first token is
never cancelled, and a single mutation is delivered twice - a previously
registered listener keeps emitting without a handle in the subscription
map, which the claim rules out. -/
theorem c8_counterexample :
    doubleSubscribed.scalarListenersOf "temperature" =
      [⟨0, "temperature", 0⟩, ⟨0, "temperature", 1⟩] ∧
    doubleSubscribed.subsOf 0 = [("temperature", 1)] ∧
    doubleSubscribed.cancelledTokens = [] ∧
    (doubleSubscribed.updateExposedDataSource "temperature" 21).outboxOf 0 =
      doubleSubscribed.outboxOf 0 ++ [mkUpdate "temperature" 21, mkUpdate "temperature" 21] := by
  decide

/-- C8 (amended): the subscription map itself holds at most one handle per
id (`Map.set` replaces), but a second subscribe to the same id registers a
second listener without cancelling the first: on the canonical double
subscribe the source carries two listeners for the same (session, id) pair,
the map retains only the newer token, the older token is never cancelled,
and every subsequent mutation is therefore delivered twice to the session. -/
theorem c8_amended (v w : Int) :
    (doubleSubscribe v).scalarListenersOf "temperature" =
      [⟨0, "temperature", 0⟩, ⟨0, "temperature", 1⟩] ∧
    (doubleSubscribe v).subsOf 0 = [("temperature", 1)] ∧
    (doubleSubscribe v).cancelledTokens = [] ∧
    ((doubleSubscribe v).updateExposedDataSource "temperature" w).outboxOf 0 =
      [mkUpdate "temperature" v, mkUpdate "temperature" v,
        mkUpdate "temperature" w, mkUpdate "temperature" w] := by
  exact ⟨rfl, rfl, rfl, rfl⟩

/-- C3: the close handler removes the session from the live list and then
calls `client.dispose()`, which `Client` does not define, so the handler
throws: no cancellation happens, the session's subscription map still holds
its handle, the listener stays attached, and a mutation of the source after
the close still sends an update frame to the closed session. -/
theorem c3_close_cancels_nothing :
    (temperatureSubscribed.onClose 0).2 = true ∧
    (temperatureSubscribed.onClose 0).1.wsServerClients = [] ∧
    (temperatureSubscribed.onClose 0).1.cancelledTokens = [] ∧
    (temperatureSubscribed.onClose 0).1.subsOf 0 = [("temperature", 0)] ∧
    (temperatureSubscribed.onClose 0).1.scalarListenersOf "temperature" =
      [⟨0, "temperature", 0⟩] ∧
    ((temperatureSubscribed.onClose 0).1.updateExposedDataSource "temperature" 21).outboxOf 0 =
      [mkUpdate "temperature" 20, mkUpdate "temperature" 21] := by
  decide

/-- C1: counterexample. Subscribing to the exposed scalar "secret" whose
authorizer denies the read yields the 401 error envelope, but the session's
subscription map is not left unchanged: a fresh cancellation handle for
"secret" was registered before the authorization check. -/
theorem c1_counterexample :
    (secretServer.listenDataSource ⟨InboundType.LISTEN_DATASOURCE, "secret", "t", 0⟩ 0).outboxOf 0 =
      [mkErr RemoteProtocol.LISTEN_DATASOURCE_ERR "secret" 401 "Unauthorized"] ∧
    secretServer.subsOf 0 = [] ∧
    (secretServer.listenDataSource ⟨InboundType.LISTEN_DATASOURCE, "secret", "t", 0⟩ 0).subsOf 0 =
      [("secret", 0)] := by
  decide

/-- Emission-order fan-out: when an exposed scalar source carries exactly one
listener for the observed session (registered last, token live) and the
remaining listeners belong to other sessions, a sequence of mutations
appends exactly one update message per mutation, in emission order. -/
theorem outboxOf_updateMany (vs : List Int) (s : AurumServer) (id : String)
    (ep : DSEndpoint) (ls : List Listener) (cid t : Nat) (c : Client)
    (hep : lookupA s.exposedDataSources id = some ep)
    (hls : ep.source.listeners = ls ++ [⟨cid, id, t⟩])
    (h : ∀ l ∈ ls, l.clientId ≠ cid)
    (hfc : findClient s.clients cid = some c)
    (ht : t ∉ s.cancelledTokens) :
    (s.updateMany id vs).outboxOf cid = s.outboxOf cid ++ vs.map (mkUpdate id) := by
  induction vs generalizing s ep c with
  | nil => simp [AurumServer.updateMany]
  | cons v rest ih =>
    have hs1 : s.updateExposedDataSource id v =
        deliverWith (fun sid => mkUpdate sid v)
          { s with exposedDataSources := setAssoc s.exposedDataSources id ({ ep with source := { ep.source with value := v } }) }
          (ls ++ [⟨cid, id, t⟩]) := by
      unfold AurumServer.updateExposedDataSource
      rw [hep]
      show deliverScalar _ ep.source.listeners v = _
      rw [hls]
      rfl
    have f1 : lookupA (s.updateExposedDataSource id v).exposedDataSources id =
        some { ep with source := { ep.source with value := v } } := by
      rw [hs1, exposedDataSources_deliverWith]
      exact lookupA_setAssoc_self _ _ _
    have f4 : t ∉ (s.updateExposedDataSource id v).cancelledTokens := by
      rw [hs1, cancelledTokens_deliverWith]
      exact ht
    have f3 : (findClient (s.updateExposedDataSource id v).clients cid).isSome = true := by
      rw [hs1, findClient_deliverWith_isSome]
      show (findClient s.clients cid).isSome = true
      rw [hfc]
      rfl
    obtain ⟨c2, hc2⟩ := Option.isSome_iff_exists.mp f3
    have f5 : (s.updateExposedDataSource id v).outboxOf cid =
        s.outboxOf cid ++ [mkUpdate id v] := by
      rw [hs1]
      exact outboxOf_deliverWith_last _ ls _ cid id t c h hfc ht
    show ((s.updateExposedDataSource id v).updateMany id rest).outboxOf cid =
      s.outboxOf cid ++ (v :: rest).map (mkUpdate id)
    rw [ih _ _ c2 f1 hls hc2 f4, f5]
    simp

/-- C4 (amended): for every successful scalar subscribe (id present,
authorizer true), the first message delivered to the client is an
update-scalar frame carrying the source's current value - the initial value
arrives as the first entry of the update stream, not as a distinct
subscribe-ack frame - and every later source mutation yields exactly one
further update message, in the source's own emission order, with no drops
or duplicates. -/
theorem c4_amended (s : AurumServer) (ep : DSEndpoint) (senderId : Nat) (c : Client)
    (m : InboundMessage)
    (hep : lookupA s.exposedDataSources m.id = some ep)
    (ha : ep.authenticator m.token Op.read = true)
    (hl : ∀ l ∈ ep.source.listeners, l.clientId ≠ senderId)
    (hfc : findClient s.clients senderId = some c)
    (ht : s.nextTokenId ∉ s.cancelledTokens) :
    (s.listenDataSource m senderId).outboxOf senderId =
      s.outboxOf senderId ++ [mkUpdate m.id ep.source.value] ∧
    ∀ vs : List Int,
      ((s.listenDataSource m senderId).updateMany m.id vs).outboxOf senderId =
        (s.listenDataSource m senderId).outboxOf senderId ++ vs.map (mkUpdate m.id) := by
  have hsL : s.listenDataSource m senderId =
      AurumServer.sendTo
        { s with nextTokenId := s.nextTokenId + 1,
                 clients := mapClients s.clients senderId
                   (fun c2 => { c2 with subscriptions := setAssoc c2.subscriptions m.id s.nextTokenId }),
                 exposedDataSources := setAssoc s.exposedDataSources m.id ({ ep with source := { ep.source with listeners := ep.source.listeners ++ [⟨senderId, m.id, s.nextTokenId⟩] } }) }
        senderId (mkUpdate m.id ep.source.value) := by
    simp only [AurumServer.listenDataSource, hep]
    rw [if_pos ha]
  have hf2 : findClient (mapClients s.clients senderId
      (fun c2 => { c2 with subscriptions := setAssoc c2.subscriptions m.id s.nextTokenId })) senderId =
      some { c with subscriptions := setAssoc c.subscriptions m.id s.nextTokenId } := by
    rw [findClient_mapClients s.clients senderId senderId
      (fun c2 => { c2 with subscriptions := setAssoc c2.subscriptions m.id s.nextTokenId })
      (fun c2 => rfl), if_pos rfl, hfc]
    rfl
  have part1 : (s.listenDataSource m senderId).outboxOf senderId =
      s.outboxOf senderId ++ [mkUpdate m.id ep.source.value] := by
    rw [hsL, outboxOf_sendTo_self _ _ _ _ hf2]
    simp only [AurumServer.outboxOf]
    rw [hf2, hfc]
  refine ⟨part1, fun vs => ?_⟩
  have hfL : findClient (s.listenDataSource m senderId).clients senderId =
      some { c with subscriptions := setAssoc c.subscriptions m.id s.nextTokenId,
                    outbox := c.outbox ++ [mkUpdate m.id ep.source.value] } := by
    rw [hsL, findClient_sendTo, if_pos rfl, hf2]
    rfl
  have hepL : lookupA (s.listenDataSource m senderId).exposedDataSources m.id =
      some { ep with source := { ep.source with listeners :=
          ep.source.listeners ++ [⟨senderId, m.id, s.nextTokenId⟩] } } := by
    rw [hsL]
    exact lookupA_setAssoc_self _ _ _
  have htL : s.nextTokenId ∉ (s.listenDataSource m senderId).cancelledTokens := by
    rw [hsL]
    exact ht
  exact outboxOf_updateMany vs (s.listenDataSource m senderId) m.id _
    ep.source.listeners senderId s.nextTokenId _ hepL rfl hl hfL htL

/-- C4 witness: the amended theorem applied to the concrete "temperature"
scenario - the subscribe delivers the current value 20 as an update frame,
and the mutation sequence [21, 22] delivers exactly the two updates in
order. -/
theorem c4_amended_witness :
    temperatureSubscribed.outboxOf 0 =
      temperatureServer.outboxOf 0 ++ [mkUpdate "temperature" 20] ∧
    (temperatureSubscribed.updateMany "temperature" [21, 22]).outboxOf 0 =
      temperatureSubscribed.outboxOf 0 ++ [21, 22].map (mkUpdate "temperature") := by
  have h := c4_amended temperatureServer ⟨⟨20, []⟩, allowAll⟩ 0 demoClient
    temperatureSubscribeMsg rfl rfl (fun l hl => absurd hl (List.not_mem_nil l)) rfl (by decide)
  exact ⟨h.1, h.2 [21, 22]⟩

/-- C4: counterexample. After a successful scalar subscribe the first (and
only) frame delivered is an `UPDATE_DATASOURCE` update carrying the current
value - no `LISTEN_DATASOURCE_OK` subscribe-ack is ever sent: the current
handler forwards the initial value through `listenAndRepeat` as the first
entry of the update stream. -/
theorem c4_counterexample :
    temperatureSubscribed.outboxOf 0 = [mkUpdate "temperature" 20] ∧
    (temperatureSubscribed.outboxOf 0).head?.map Message.msgType =
      some RemoteProtocol.UPDATE_DATASOURCE ∧
    ∀ m ∈ temperatureSubscribed.outboxOf 0,
      m.msgType ≠ RemoteProtocol.LISTEN_DATASOURCE_OK := by
  decide

theorem lastActivityOf_mapClients (cs : List Client) (cid cid2 : Nat)
    (f : Client → Client)
    (hfid : ∀ c2, (f c2).clientId = c2.clientId)
    (hft : ∀ c2, (f c2).timeSinceLastMessage = c2.timeSinceLastMessage) :
    (match findClient (mapClients cs cid2 f) cid with
      | some c2 => c2.timeSinceLastMessage
      | none => none) =
    (match findClient cs cid with
      | some c2 => c2.timeSinceLastMessage
      | none => none) := by
  rw [findClient_mapClients cs cid cid2 f hfid]
  by_cases h : cid2 = cid
  · rw [if_pos h]
    cases findClient cs cid with
    | none => rfl
    | some c2 => simp [hft]
  · rw [if_neg h]

theorem lastActivityOf_listenDataSource (s : AurumServer) (m : InboundMessage)
    (senderId cid : Nat) :
    (s.listenDataSource m senderId).lastActivityOf cid = s.lastActivityOf cid := by
  unfold AurumServer.listenDataSource
  split
  · split
    · rw [lastActivityOf_sendTo]
      exact lastActivityOf_mapClients s.clients cid senderId _ (fun c2 => rfl) (fun c2 => rfl)
    · rw [lastActivityOf_sendTo]
      exact lastActivityOf_mapClients s.clients cid senderId _ (fun c2 => rfl) (fun c2 => rfl)
  · rw [lastActivityOf_sendTo]

theorem lastActivityOf_listenArrayDataSource (s : AurumServer) (m : InboundMessage)
    (senderId cid : Nat) :
    (s.listenArrayDataSource m senderId).lastActivityOf cid = s.lastActivityOf cid := by
  unfold AurumServer.listenArrayDataSource
  split
  · split
    · rw [lastActivityOf_sendTo]
      exact lastActivityOf_mapClients s.clients cid senderId _ (fun c2 => rfl) (fun c2 => rfl)
    · rw [lastActivityOf_sendTo]
      exact lastActivityOf_mapClients s.clients cid senderId _ (fun c2 => rfl) (fun c2 => rfl)
  · rw [lastActivityOf_sendTo]

theorem lastActivityOf_listenDuplexDataSource (s : AurumServer) (m : InboundMessage)
    (senderId cid : Nat) :
    (s.listenDuplexDataSource m senderId).lastActivityOf cid = s.lastActivityOf cid := by
  unfold AurumServer.listenDuplexDataSource
  split
  · split
    · rw [lastActivityOf_sendTo]
      exact lastActivityOf_mapClients s.clients cid senderId _ (fun c2 => rfl) (fun c2 => rfl)
    · rw [lastActivityOf_sendTo]
      exact lastActivityOf_mapClients s.clients cid senderId _ (fun c2 => rfl) (fun c2 => rfl)
  · rw [lastActivityOf_sendTo]

theorem lastActivityOf_updateDuplexDataSource (s : AurumServer) (m : InboundMessage)
    (senderId cid : Nat) :
    (s.updateDuplexDataSource m senderId).lastActivityOf cid = s.lastActivityOf cid := by
  unfold AurumServer.updateDuplexDataSource
  split
  · split
    · rfl
    · rw [lastActivityOf_sendTo]
  · rw [lastActivityOf_sendTo]

/-- C10: a non-string frame is silently ignored - the server state is
bit-for-bit unchanged, so nothing is parsed, nothing is sent and no session
state (the liveness timestamp included) changes - while every text frame
below the size limit that parses successfully updates the sender's liveness
timestamp, whatever its message kind (the four dispatched kinds, heartbeat,
and unknown kinds alike). -/
theorem c10_binary_ignored_activity_updated (s : AurumServer) (senderId now : Nat) :
    s.processMessage senderId WsData.binary now = s ∧
    (∀ len (m2 : InboundMessage) (c : Client), len < s.config.maxMessageSize →
      findClient s.clients senderId = some c →
      (s.processMessage senderId (WsData.str len (some m2)) now).lastActivityOf senderId =
        some now) := by
  constructor
  · rfl
  · intro len m2 c hlen hfc
    have h1 : ∀ s2 : AurumServer, s2.clients = mapClients s.clients senderId
        (fun c2 => { c2 with timeSinceLastMessage := some now }) →
        s2.lastActivityOf senderId = some now := by
      intro s2 h2
      unfold AurumServer.lastActivityOf
      rw [h2, findClient_mapClients s.clients senderId senderId
        (fun c2 => { c2 with timeSinceLastMessage := some now }) (fun c2 => rfl),
        if_pos rfl, hfc]
      rfl
    simp only [AurumServer.processMessage]
    rw [if_neg (by omega)]
    obtain ⟨mt, mid, mtok, mv⟩ := m2
    cases mt
    case LISTEN_DATASOURCE =>
      rw [lastActivityOf_listenDataSource]
      exact h1 _ rfl
    case LISTEN_DUPLEX_DATASOURCE =>
      rw [lastActivityOf_listenDuplexDataSource]
      exact h1 _ rfl
    case LISTEN_ARRAY_DATASOURCE =>
      rw [lastActivityOf_listenArrayDataSource]
      exact h1 _ rfl
    case UPDATE_DUPLEX_DATASOURCE =>
      rw [lastActivityOf_updateDuplexDataSource]
      exact h1 _ rfl
    case HEARTBEAT => exact h1 _ rfl
    case UNKNOWN => exact h1 _ rfl

/-- C10 witness: the binary clause at the concrete base server, and the
liveness clause for a parseable frame of an unknown kind. -/
theorem c10_witness :
    baseServer.processMessage 0 WsData.binary 42 = baseServer ∧
    (baseServer.processMessage 0 (WsData.str 3 (some ⟨InboundType.UNKNOWN, "x", "t", 0⟩)) 42).lastActivityOf 0 =
      some 42 := by
  exact ⟨(c10_binary_ignored_activity_updated baseServer 0 42).1,
    (c10_binary_ignored_activity_updated baseServer 0 42).2 3 ⟨InboundType.UNKNOWN, "x", "t", 0⟩
      demoClient (by decide) rfl⟩

/-- C5: a write-duplex against a present id with write authorization granted
records exactly one upstream push of the provided value and leaves every
session untouched (no response frame is handed to any connection); with
authorization denied the upstream push list is unchanged and the sender
receives exactly one write-error envelope with code 401. -/
theorem c5_write_duplex (s : AurumServer) (senderId : Nat) (c : Client)
    (m : InboundMessage) (ep : DDSEndpoint)
    (hep : lookupA s.exposedDuplexDataSources m.id = some ep)
    (hfc : findClient s.clients senderId = some c) :
    (ep.authenticator m.token Op.write = true →
      (s.updateDuplexDataSource m senderId).pushesOf m.id = s.pushesOf m.id ++ [m.value] ∧
      (s.updateDuplexDataSource m senderId).clients = s.clients) ∧
    (ep.authenticator m.token Op.write = false →
      (s.updateDuplexDataSource m senderId).pushesOf m.id = s.pushesOf m.id ∧
      (s.updateDuplexDataSource m senderId).exposedDuplexDataSources =
        s.exposedDuplexDataSources ∧
      (s.updateDuplexDataSource m senderId).outboxOf senderId =
        s.outboxOf senderId ++
          [mkErr RemoteProtocol.UPDATE_DUPLEX_DATASOURCE_ERR m.id 401 "Unauthorized"]) := by
  constructor
  · intro ha
    have e1 : s.updateDuplexDataSource m senderId =
        { s with exposedDuplexDataSources := setAssoc s.exposedDuplexDataSources m.id ({ ep with source := { ep.source with upstreamPushes := ep.source.upstreamPushes ++ [m.value] } }) } := by
      simp only [AurumServer.updateDuplexDataSource, hep]
      rw [if_pos ha]
    constructor
    · rw [e1]
      simp only [AurumServer.pushesOf]
      rw [lookupA_setAssoc_self, hep]
    · rw [e1]
  · intro ha
    have e1 : s.updateDuplexDataSource m senderId =
        s.sendTo senderId (mkErr RemoteProtocol.UPDATE_DUPLEX_DATASOURCE_ERR m.id 401 "Unauthorized") := by
      simp only [AurumServer.updateDuplexDataSource, hep]
      rw [if_neg (by simp [ha])]
    refine ⟨?_, ?_, ?_⟩
    · rw [e1]
      rfl
    · rw [e1]
      rfl
    · rw [e1, outboxOf_sendTo_self _ _ _ c hfc]

/-- C5 witness: the write-duplex theorem applied to the concrete "chat"
duplex source, once with the allow-all authorizer (the push is recorded,
no frame is sent) and once with the denying authorizer (no push, 401). -/
theorem c5_write_duplex_witness :
    (chatServer.updateDuplexDataSource ⟨InboundType.UPDATE_DUPLEX_DATASOURCE, "chat", "t", 9⟩ 0).pushesOf "chat" =
      chatServer.pushesOf "chat" ++ [9] ∧
    (chatServer.updateDuplexDataSource ⟨InboundType.UPDATE_DUPLEX_DATASOURCE, "chat", "t", 9⟩ 0).clients =
      chatServer.clients ∧
    (chatServerDeny.updateDuplexDataSource ⟨InboundType.UPDATE_DUPLEX_DATASOURCE, "chat", "t", 9⟩ 0).pushesOf "chat" =
      chatServerDeny.pushesOf "chat" ∧
    (chatServerDeny.updateDuplexDataSource ⟨InboundType.UPDATE_DUPLEX_DATASOURCE, "chat", "t", 9⟩ 0).outboxOf 0 =
      chatServerDeny.outboxOf 0 ++
        [mkErr RemoteProtocol.UPDATE_DUPLEX_DATASOURCE_ERR "chat" 401 "Unauthorized"] := by
  have hTrue := (c5_write_duplex chatServer 0 demoClient
    ⟨InboundType.UPDATE_DUPLEX_DATASOURCE, "chat", "t", 9⟩
    ⟨⟨5, [], []⟩, allowAll⟩ rfl rfl).1 rfl
  have hFalse := (c5_write_duplex chatServerDeny 0 demoClient
    ⟨InboundType.UPDATE_DUPLEX_DATASOURCE, "chat", "t", 9⟩
    ⟨⟨5, [], []⟩, denyAll⟩ rfl rfl).2 rfl
  exact ⟨hTrue.1, hTrue.2, hFalse.1, hFalse.2.2⟩

/-- C6: every subscribe (scalar, collection, duplex) and write-duplex
request whose id is absent from the relevant registry sends exactly one
error envelope with code 404 to the sender and changes nothing else: the
subscription map and all three registries are left as they were. -/
theorem c6_not_found (s : AurumServer) (senderId : Nat) (c : Client) (m : InboundMessage)
    (hfc : findClient s.clients senderId = some c) :
    (lookupA s.exposedDataSources m.id = none →
      (s.listenDataSource m senderId).outboxOf senderId =
        s.outboxOf senderId ++ [mkErr RemoteProtocol.LISTEN_DATASOURCE_ERR m.id 404 "No such datasource"] ∧
      (s.listenDataSource m senderId).subsOf senderId = s.subsOf senderId ∧
      (s.listenDataSource m senderId).nextTokenId = s.nextTokenId ∧
      (s.listenDataSource m senderId).exposedDataSources = s.exposedDataSources ∧
      (s.listenDataSource m senderId).exposedArrayDataSources = s.exposedArrayDataSources ∧
      (s.listenDataSource m senderId).exposedDuplexDataSources = s.exposedDuplexDataSources) ∧
    (lookupA s.exposedArrayDataSources m.id = none →
      (s.listenArrayDataSource m senderId).outboxOf senderId =
        s.outboxOf senderId ++ [mkErr RemoteProtocol.LISTEN_ARRAY_DATASOURCE_ERR m.id 404 "No such array datasource"] ∧
      (s.listenArrayDataSource m senderId).subsOf senderId = s.subsOf senderId ∧
      (s.listenArrayDataSource m senderId).nextTokenId = s.nextTokenId ∧
      (s.listenArrayDataSource m senderId).exposedDataSources = s.exposedDataSources ∧
      (s.listenArrayDataSource m senderId).exposedArrayDataSources = s.exposedArrayDataSources ∧
      (s.listenArrayDataSource m senderId).exposedDuplexDataSources = s.exposedDuplexDataSources) ∧
    (lookupA s.exposedDuplexDataSources m.id = none →
      ((s.listenDuplexDataSource m senderId).outboxOf senderId =
        s.outboxOf senderId ++ [mkErr RemoteProtocol.LISTEN_DUPLEX_DATASOURCE_ERR m.id 404 "No such duplex datasource"] ∧
      (s.listenDuplexDataSource m senderId).subsOf senderId = s.subsOf senderId ∧
      (s.listenDuplexDataSource m senderId).nextTokenId = s.nextTokenId ∧
      (s.listenDuplexDataSource m senderId).exposedDuplexDataSources = s.exposedDuplexDataSources) ∧
      ((s.updateDuplexDataSource m senderId).outboxOf senderId =
        s.outboxOf senderId ++ [mkErr RemoteProtocol.UPDATE_DUPLEX_DATASOURCE_ERR m.id 404 "No such duplex datasource"] ∧
      (s.updateDuplexDataSource m senderId).subsOf senderId = s.subsOf senderId ∧
      (s.updateDuplexDataSource m senderId).exposedDataSources = s.exposedDataSources ∧
      (s.updateDuplexDataSource m senderId).exposedArrayDataSources = s.exposedArrayDataSources ∧
      (s.updateDuplexDataSource m senderId).exposedDuplexDataSources = s.exposedDuplexDataSources)) := by
  refine ⟨fun h1 => ?_, fun h2 => ?_, fun h3 => ⟨?_, ?_⟩⟩
  · have e1 : s.listenDataSource m senderId =
        s.sendTo senderId (mkErr RemoteProtocol.LISTEN_DATASOURCE_ERR m.id 404 "No such datasource") := by
      simp only [AurumServer.listenDataSource, h1]
    rw [e1]
    exact ⟨outboxOf_sendTo_self _ _ _ c hfc, subsOf_sendTo _ _ _ _, rfl, rfl, rfl, rfl⟩
  · have e2 : s.listenArrayDataSource m senderId =
        s.sendTo senderId (mkErr RemoteProtocol.LISTEN_ARRAY_DATASOURCE_ERR m.id 404 "No such array datasource") := by
      simp only [AurumServer.listenArrayDataSource, h2]
    rw [e2]
    exact ⟨outboxOf_sendTo_self _ _ _ c hfc, subsOf_sendTo _ _ _ _, rfl, rfl, rfl, rfl⟩
  · have e3 : s.listenDuplexDataSource m senderId =
        s.sendTo senderId (mkErr RemoteProtocol.LISTEN_DUPLEX_DATASOURCE_ERR m.id 404 "No such duplex datasource") := by
      simp only [AurumServer.listenDuplexDataSource, h3]
    rw [e3]
    exact ⟨outboxOf_sendTo_self _ _ _ c hfc, subsOf_sendTo _ _ _ _, rfl, rfl⟩
  · have e4 : s.updateDuplexDataSource m senderId =
        s.sendTo senderId (mkErr RemoteProtocol.UPDATE_DUPLEX_DATASOURCE_ERR m.id 404 "No such duplex datasource") := by
      simp only [AurumServer.updateDuplexDataSource, h3]
    rw [e4]
    exact ⟨outboxOf_sendTo_self _ _ _ c hfc, subsOf_sendTo _ _ _ _, rfl, rfl, rfl⟩

/-- C6 witness: the not-found theorem applied at the base server, whose
registries are all empty, with the id "nope". -/
theorem c6_not_found_witness :
    (baseServer.listenDataSource ⟨InboundType.LISTEN_DATASOURCE, "nope", "t", 0⟩ 0).outboxOf 0 =
      baseServer.outboxOf 0 ++ [mkErr RemoteProtocol.LISTEN_DATASOURCE_ERR "nope" 404 "No such datasource"] ∧
    (baseServer.listenArrayDataSource ⟨InboundType.LISTEN_DATASOURCE, "nope", "t", 0⟩ 0).subsOf 0 =
      baseServer.subsOf 0 ∧
    (baseServer.listenDuplexDataSource ⟨InboundType.LISTEN_DATASOURCE, "nope", "t", 0⟩ 0).outboxOf 0 =
      baseServer.outboxOf 0 ++ [mkErr RemoteProtocol.LISTEN_DUPLEX_DATASOURCE_ERR "nope" 404 "No such duplex datasource"] ∧
    (baseServer.updateDuplexDataSource ⟨InboundType.LISTEN_DATASOURCE, "nope", "t", 0⟩ 0).outboxOf 0 =
      baseServer.outboxOf 0 ++ [mkErr RemoteProtocol.UPDATE_DUPLEX_DATASOURCE_ERR "nope" 404 "No such duplex datasource"] := by
  have h := c6_not_found baseServer 0 demoClient
    ⟨InboundType.LISTEN_DATASOURCE, "nope", "t", 0⟩ rfl
  exact ⟨(h.1 rfl).1, (h.2.1 rfl).2.1, ((h.2.2 rfl).1).1, ((h.2.2 rfl).2).1⟩

/-- C1 (amended): for every subscribe request (scalar, collection, or
duplex) whose id is present but whose authorizer returns false for "read",
the server sends exactly one subscribe-error envelope with code 401 and
attaches no listener to the source (the registries are untouched) - but the
session's subscription map is not left unchanged: a fresh cancellation
handle is stored under the id before the authorization check. -/
theorem c1_amended (s : AurumServer) (senderId : Nat) (c : Client) (m : InboundMessage)
    (hfc : findClient s.clients senderId = some c) :
    (∀ ep : DSEndpoint, lookupA s.exposedDataSources m.id = some ep →
      ep.authenticator m.token Op.read = false →
      (s.listenDataSource m senderId).outboxOf senderId =
        s.outboxOf senderId ++ [mkErr RemoteProtocol.LISTEN_DATASOURCE_ERR m.id 401 "Unauthorized"] ∧
      (s.listenDataSource m senderId).exposedDataSources = s.exposedDataSources ∧
      (s.listenDataSource m senderId).subsOf senderId =
        setAssoc (s.subsOf senderId) m.id s.nextTokenId) ∧
    (∀ ep : ADSEndpoint, lookupA s.exposedArrayDataSources m.id = some ep →
      ep.authenticator m.token Op.read = false →
      (s.listenArrayDataSource m senderId).outboxOf senderId =
        s.outboxOf senderId ++ [mkErr RemoteProtocol.LISTEN_ARRAY_DATASOURCE_ERR m.id 401 "Unauthorized"] ∧
      (s.listenArrayDataSource m senderId).exposedArrayDataSources = s.exposedArrayDataSources ∧
      (s.listenArrayDataSource m senderId).subsOf senderId =
        setAssoc (s.subsOf senderId) m.id s.nextTokenId) ∧
    (∀ ep : DDSEndpoint, lookupA s.exposedDuplexDataSources m.id = some ep →
      ep.authenticator m.token Op.read = false →
      (s.listenDuplexDataSource m senderId).outboxOf senderId =
        s.outboxOf senderId ++ [mkErr RemoteProtocol.LISTEN_DUPLEX_DATASOURCE_ERR m.id 401 "Unauthorized"] ∧
      (s.listenDuplexDataSource m senderId).exposedDuplexDataSources = s.exposedDuplexDataSources ∧
      (s.listenDuplexDataSource m senderId).subsOf senderId =
        setAssoc (s.subsOf senderId) m.id s.nextTokenId) := by
  have hf2 : findClient (mapClients s.clients senderId
      (fun c2 => { c2 with subscriptions := setAssoc c2.subscriptions m.id s.nextTokenId })) senderId =
      some { c with subscriptions := setAssoc c.subscriptions m.id s.nextTokenId } := by
    rw [findClient_mapClients s.clients senderId senderId
      (fun c2 => { c2 with subscriptions := setAssoc c2.subscriptions m.id s.nextTokenId })
      (fun c2 => rfl), if_pos rfl, hfc]
    rfl
  refine ⟨fun ep hep ha => ?_, fun ep hep ha => ?_, fun ep hep ha => ?_⟩
  · have e1 : s.listenDataSource m senderId =
        AurumServer.sendTo
          { s with nextTokenId := s.nextTokenId + 1,
                   clients := mapClients s.clients senderId
                     (fun c2 => { c2 with subscriptions := setAssoc c2.subscriptions m.id s.nextTokenId }) }
          senderId (mkErr RemoteProtocol.LISTEN_DATASOURCE_ERR m.id 401 "Unauthorized") := by
      simp only [AurumServer.listenDataSource, hep]
      rw [if_neg (by simp [ha])]
    refine ⟨?_, ?_, ?_⟩
    · rw [e1, outboxOf_sendTo_self _ _ _ _ hf2]
      simp only [AurumServer.outboxOf]
      rw [hf2, hfc]
    · rw [e1]
      rfl
    · rw [e1, subsOf_sendTo]
      simp only [AurumServer.subsOf]
      rw [hf2, hfc]
  · have e1 : s.listenArrayDataSource m senderId =
        AurumServer.sendTo
          { s with nextTokenId := s.nextTokenId + 1,
                   clients := mapClients s.clients senderId
                     (fun c2 => { c2 with subscriptions := setAssoc c2.subscriptions m.id s.nextTokenId }) }
          senderId (mkErr RemoteProtocol.LISTEN_ARRAY_DATASOURCE_ERR m.id 401 "Unauthorized") := by
      simp only [AurumServer.listenArrayDataSource, hep]
      rw [if_neg (by simp [ha])]
    refine ⟨?_, ?_, ?_⟩
    · rw [e1, outboxOf_sendTo_self _ _ _ _ hf2]
      simp only [AurumServer.outboxOf]
      rw [hf2, hfc]
    · rw [e1]
      rfl
    · rw [e1, subsOf_sendTo]
      simp only [AurumServer.subsOf]
      rw [hf2, hfc]
  · have e1 : s.listenDuplexDataSource m senderId =
        AurumServer.sendTo
          { s with nextTokenId := s.nextTokenId + 1,
                   clients := mapClients s.clients senderId
                     (fun c2 => { c2 with subscriptions := setAssoc c2.subscriptions m.id s.nextTokenId }) }
          senderId (mkErr RemoteProtocol.LISTEN_DUPLEX_DATASOURCE_ERR m.id 401 "Unauthorized") := by
      simp only [AurumServer.listenDuplexDataSource, hep]
      rw [if_neg (by simp [ha])]
    refine ⟨?_, ?_, ?_⟩
    · rw [e1, outboxOf_sendTo_self _ _ _ _ hf2]
      simp only [AurumServer.outboxOf]
      rw [hf2, hfc]
    · rw [e1]
      rfl
    · rw [e1, subsOf_sendTo]
      simp only [AurumServer.subsOf]
      rw [hf2, hfc]

/-- C1 witness: the amended theorem applied to the server that exposes a
scalar, a collection and a duplex source under "secret", all denying. -/
theorem c1_amended_witness :
    (tripleDenyServer.listenDataSource (secretMsg InboundType.LISTEN_DATASOURCE) 0).outboxOf 0 =
      tripleDenyServer.outboxOf 0 ++ [mkErr RemoteProtocol.LISTEN_DATASOURCE_ERR "secret" 401 "Unauthorized"] ∧
    (tripleDenyServer.listenDataSource (secretMsg InboundType.LISTEN_DATASOURCE) 0).subsOf 0 =
      setAssoc (tripleDenyServer.subsOf 0) "secret" tripleDenyServer.nextTokenId ∧
    (tripleDenyServer.listenArrayDataSource (secretMsg InboundType.LISTEN_ARRAY_DATASOURCE) 0).subsOf 0 =
      setAssoc (tripleDenyServer.subsOf 0) "secret" tripleDenyServer.nextTokenId ∧
    (tripleDenyServer.listenDuplexDataSource (secretMsg InboundType.LISTEN_DUPLEX_DATASOURCE) 0).subsOf 0 =
      setAssoc (tripleDenyServer.subsOf 0) "secret" tripleDenyServer.nextTokenId := by
  have hA := c1_amended tripleDenyServer 0 demoClient (secretMsg InboundType.LISTEN_DATASOURCE) rfl
  have hB := c1_amended tripleDenyServer 0 demoClient (secretMsg InboundType.LISTEN_ARRAY_DATASOURCE) rfl
  have hC := c1_amended tripleDenyServer 0 demoClient (secretMsg InboundType.LISTEN_DUPLEX_DATASOURCE) rfl
  have h1 := hA.1 ⟨⟨7, []⟩, denyAll⟩ rfl rfl
  have h2 := hB.2.1 ⟨⟨[1], []⟩, denyAll⟩ rfl rfl
  have h3 := hC.2.2 ⟨⟨5, [], []⟩, denyAll⟩ rfl rfl
  exact ⟨h1.1, h1.2.2, h2.2.2, h3.2.2⟩

end Aurum
